import Mathlib

/-!
Verification of the interactive human-in-the-loop CLI (`interactive_cli.py`).

Python strings are modelled as lists of characters (`PyStr`); Python's
`str.lower` is modelled character-wise (the tool names involved are ASCII),
`str.strip` drops the ASCII whitespace characters from both ends, and the
substring test `needle in hay` is the executable `containsSub`.
-/

/-- A Python string, modelled as its list of characters. -/
abbrev PyStr := List Char

/-- Conversion from a Lean string literal to the `PyStr` model. -/
def pystr (s : String) : PyStr := s.data

/-- Python `str.lower`, modelled character-wise (ASCII). -/
def pyLower (s : PyStr) : PyStr := s.map Char.toLower

/-- The whitespace characters stripped by Python `str.strip()` (ASCII range). -/
def isPyWhitespace (c : Char) : Bool :=
  c = ' ' || c = '\t' || c = '\n' || c = '\r' || c = '\x0b' || c = '\x0c'

/-- Python `str.strip()`: drop whitespace from both ends. -/
def pyStrip (s : PyStr) : PyStr :=
  ((s.dropWhile isPyWhitespace).reverse.dropWhile isPyWhitespace).reverse

/-- Executable test that `n` is an initial segment of `h`. -/
def pyStartsWith : PyStr → PyStr → Bool
  | [], _ => true
  | _ :: _, [] => false
  | a :: as, b :: bs => decide (a = b) && pyStartsWith as bs

/-- Python's substring operator `needle in hay`. -/
def containsSub : PyStr → PyStr → Bool
  | [], needle => pyStartsWith needle []
  | c :: rest, needle => pyStartsWith needle (c :: rest) || containsSub rest needle

/-- The string `hay` contains `needle` as a contiguous substring (specification form). -/
def hasSubstring (hay needle : PyStr) : Prop :=
  ∃ l r, hay = l ++ needle ++ r

/-! ## Decimal rendering of numbers (Python `str` / f-string formatting) -/

/-- The decimal digit character for `n < 10`. -/
def digitChar (n : Nat) : Char := Char.ofNat (48 + n)

/-- Decimal rendering of a natural number (Python `str(n)`). -/
def natToChars (n : Nat) : PyStr := Nat.toDigits 10 n

/-- Decimal rendering of an integer (Python `str(n)` / f-string `{n}`). -/
def intToChars (n : Int) : PyStr :=
  (if n < 0 then [Char.ofNat 45] else []) ++ natToChars n.natAbs

/-! ## JSON values and `json.dumps`

Tool inputs and tool results are JSON-like Python values; `json.dumps` is
modelled for both call shapes used by the source: the compact form
(default separators `", "` and `": "`, used by the message renderer) and the
`indent=2` form (separators `","`/`": "` with newline-and-indent layout, used
by the permission gate's confirmation message). `ensure_ascii=False` means
non-ASCII characters are kept as-is, which the escaping below reflects. -/

inductive Json where
  | null : Json
  | bool : Bool → Json
  | int : Int → Json
  | str : PyStr → Json
  | arr : List Json → Json
  | obj : List (PyStr × Json) → Json

/-- One hex digit (lower case), as produced by Python `\uXXXX` escapes. -/
def hexDigit (n : Nat) : Char :=
  if n < 10 then Char.ofNat (48 + n) else Char.ofNat (87 + n)

/-- JSON escaping of a single character (`ensure_ascii=False` keeps non-ASCII). -/
def jsonEscapeChar (c : Char) : PyStr :=
  if c = '"' then ['\\', '"']
  else if c = '\\' then ['\\', '\\']
  else if c = '\n' then ['\\', 'n']
  else if c = '\t' then ['\\', 't']
  else if c = '\r' then ['\\', 'r']
  else if c = Char.ofNat 8 then ['\\', 'b']
  else if c = Char.ofNat 12 then ['\\', 'f']
  else if c.toNat < 32 then
    ['\\', 'u', '0', '0', hexDigit (c.toNat / 16), hexDigit (c.toNat % 16)]
  else [c]

/-- JSON escaping of a whole string body. -/
def jsonEscape : PyStr → PyStr
  | [] => []
  | c :: cs => jsonEscapeChar c ++ jsonEscape cs

/-- A JSON string literal: quotes around the escaped body. -/
def jsonQuote (s : PyStr) : PyStr := '"' :: jsonEscape s ++ ['"']

mutual

/-- Compact `json.dumps` (default separators `", "` and `": "`). -/
def jsonDumps : Json → PyStr
  | .null => pystr "null"
  | .bool true => pystr "true"
  | .bool false => pystr "false"
  | .int n => intToChars n
  | .str s => jsonQuote s
  | .arr [] => pystr "[]"
  | .arr (x :: xs) => '[' :: (jsonDumps x ++ jsonDumpsArrRest xs) ++ [']']
  | .obj [] => pystr "\x7b\x7d"
  | .obj (f :: fs) =>
      Char.ofNat 123 :: (jsonDumpsField f ++ jsonDumpsObjRest fs) ++ [Char.ofNat 125]

/-- Remaining array items of compact `json.dumps`, each preceded by `", "`. -/
def jsonDumpsArrRest : List Json → PyStr
  | [] => []
  | x :: xs => ',' :: ' ' :: (jsonDumps x ++ jsonDumpsArrRest xs)

/-- One `"key": value` pair of compact `json.dumps`. -/
def jsonDumpsField : PyStr × Json → PyStr
  | (k, v) => jsonQuote k ++ ':' :: ' ' :: jsonDumps v

/-- Remaining object fields of compact `json.dumps`, each preceded by `", "`. -/
def jsonDumpsObjRest : List (PyStr × Json) → PyStr
  | [] => []
  | f :: fs => ',' :: ' ' :: (jsonDumpsField f ++ jsonDumpsObjRest fs)

end

/-- The indentation in front of an element nested at `lvl` (indent width 2). -/
def indentSp (lvl : Nat) : PyStr := List.replicate (2 * lvl) ' '

mutual

/-- Python `json.dumps(x, indent=2)`; `lvl` is the current nesting depth. -/
def jsonDumpsIndent (lvl : Nat) : Json → PyStr
  | .null => pystr "null"
  | .bool true => pystr "true"
  | .bool false => pystr "false"
  | .int n => intToChars n
  | .str s => jsonQuote s
  | .arr [] => pystr "[]"
  | .arr (x :: xs) =>
      '[' :: '\n' :: (indentSp (lvl + 1) ++ jsonDumpsIndent (lvl + 1) x
        ++ jsonIndentArrRest (lvl + 1) xs) ++ '\n' :: indentSp lvl ++ [']']
  | .obj [] => pystr "\x7b\x7d"
  | .obj (f :: fs) =>
      Char.ofNat 123 :: '\n' :: (indentSp (lvl + 1) ++ jsonIndentField (lvl + 1) f
        ++ jsonIndentObjRest (lvl + 1) fs) ++ '\n' :: indentSp lvl ++ [Char.ofNat 125]

/-- Remaining array items of indented `json.dumps`, each on its own line. -/
def jsonIndentArrRest (lvl : Nat) : List Json → PyStr
  | [] => []
  | x :: xs =>
      ',' :: '\n' :: (indentSp lvl ++ jsonDumpsIndent lvl x ++ jsonIndentArrRest lvl xs)

/-- One `"key": value` pair of indented `json.dumps`. -/
def jsonIndentField (lvl : Nat) : PyStr × Json → PyStr
  | (k, v) => jsonQuote k ++ ':' :: ' ' :: jsonDumpsIndent lvl v

/-- Remaining object fields of indented `json.dumps`, each on its own line. -/
def jsonIndentObjRest (lvl : Nat) : List (PyStr × Json) → PyStr
  | [] => []
  | f :: fs =>
      ',' :: '\n' :: (indentSp lvl ++ jsonIndentField lvl f ++ jsonIndentObjRest lvl fs)

end

/-! ## Line Reader (`read_user_input`)

The enhanced backend (prompt_toolkit) and the plain `input()` fallback are
each modelled as a function from the prompt to a `ReadOutcome`: either a
submitted line, or one of the two interruption exceptions caught by the
source (`EOFError`, `KeyboardInterrupt`). `_PTK_AVAILABLE` selects the path. -/

/-- Outcome of one underlying read: a line, or an interruption exception. -/
inductive ReadOutcome where
  | line : PyStr → ReadOutcome
  | eofError : ReadOutcome
  | keyboardInterrupt : ReadOutcome

/-- Model of `read_user_input(prompt)`: enhanced path when `ptk_available`, else the
blocking fallback; on `EOFError`/`KeyboardInterrupt` both paths return `""`. -/
def read_user_input (ptk_available : Bool)
    (enhanced fallback : PyStr → ReadOutcome) (prompt : PyStr) : PyStr :=
  if ptk_available then
    match enhanced prompt with
    | .line s => s
    | .eofError => []
    | .keyboardInterrupt => []
  else
    match fallback prompt with
    | .line s => s
    | .eofError => []
    | .keyboardInterrupt => []

/-! ## Confirmation Prompt (`prompt_yes_no`)

`reader` stands for the Line Reader (`read_user_input` with its backends
applied): it maps the prompt message shown to the operator to the raw line
the operator answered with. -/

/-- Model of `prompt_yes_no(message)`: strip and lower-case the raw answer; true iff
the result is exactly `"y"` or `"yes"`. -/
def prompt_yes_no (reader : PyStr → PyStr) (message : PyStr) : Bool :=
  decide (pyLower (pyStrip (reader message)) = pystr "y"
    ∨ pyLower (pyStrip (reader message)) = pystr "yes")

/-! ## Permission Gate -/

/-- The set `HUMAN_GATED_TOOLS` of exactly-named gated tools. -/
def HUMAN_GATED_TOOLS : List PyStr :=
  [pystr "bash", pystr "edit", pystr "multiedit", pystr "write", pystr "notebookedit"]

/-- The SDK verdict: `PermissionResultAllow()` or
`PermissionResultDeny(message=...)`. -/
inductive PermissionResult where
  | Allow : PermissionResult
  | Deny : PyStr → PermissionResult

/-- Python `str()` applied to the gate's `tool_name` argument (`None` renders
as `"None"` in the f-string messages). -/
def strOfName : Option PyStr → PyStr
  | none => pystr "None"
  | some s => s

/-- The confirmation message built by `can_use_tool_gate` (f-string with the
tool name and `json.dumps(tool_input, indent=2)`). -/
def gate_message (tool_name : Option PyStr) (tool_input : Json) : PyStr :=
  pystr "\nPermission required: " ++ strOfName tool_name
    ++ pystr " intends to run with input:\n" ++ jsonDumpsIndent 0 tool_input
    ++ pystr "\nProceed? [y/N]: "

/-- Model of `can_use_tool_gate(tool_name, tool_input, context)`.

`tool_name` is `Option PyStr` so that the `None` coercion `(tool_name or "")`
on the first line of the source is represented; the unused `context`
parameter is dropped. The second component of the result is the list of
confirmation messages issued through the Confirmation Prompt during the
call (the source issues at most one), so that "no prompt is shown" is the
statement that this list is empty. -/
def can_use_tool_gate (reader : PyStr → PyStr) (tool_name : Option PyStr)
    (tool_input : Json) : PermissionResult × List PyStr :=
  if decide (pyLower (tool_name.getD []) ∈ HUMAN_GATED_TOOLS)
      || containsSub (pyLower (tool_name.getD [])) (pystr "bash")
      || containsSub (pyLower (tool_name.getD [])) (pystr "edit")
      || containsSub (pyLower (tool_name.getD [])) (pystr "write")
      || containsSub (pyLower (tool_name.getD [])) (pystr "notebook") then
    if prompt_yes_no reader (gate_message tool_name tool_input) then
      (.Allow, [gate_message tool_name tool_input])
    else
      (.Deny (pystr "User denied " ++ strOfName tool_name),
        [gate_message tool_name tool_input])
  else
    (.Allow, [])

/-- The hook's `input_data` mapping: the `tool_name` and `tool_input` keys may
be absent (`dict.get` with defaults `""` and `{}`). The `tool_name` value is a
string per the runtime's contract, on which the source's `str()` coercion is
the identity. -/
structure HookInputData where
  tool_name : Option PyStr
  tool_input : Option Json

/-- The hook signal `{"decision": "block"}` that cancels the pending tool. -/
def BLOCK_SIGNAL : Json := .obj [(pystr "decision", .str (pystr "block"))]

/-- The empty hook signal `{}` ("no opinion, proceed"). -/
def EMPTY_SIGNAL : Json := .obj []

/-- The confirmation message built by `pre_tool_hitl`. -/
def hook_message (tool_name : PyStr) (tool_input : Json) : PyStr :=
  pystr "\nHook permission required: " ++ tool_name
    ++ pystr " intends to run with input:\n" ++ jsonDumpsIndent 0 tool_input
    ++ pystr "\nProceed? [y/N]: "

/-- Model of `pre_tool_hitl(input_data, tool_use_id, context)`.

The unused `tool_use_id` and `context` parameters are dropped. As for the
direct gate, the second component logs the confirmation messages issued. -/
def pre_tool_hitl (reader : PyStr → PyStr) (input_data : HookInputData) :
    Json × List PyStr :=
  if decide (pyLower (input_data.tool_name.getD []) ∈ HUMAN_GATED_TOOLS)
      || containsSub (pyLower (input_data.tool_name.getD [])) (pystr "bash")
      || containsSub (pyLower (input_data.tool_name.getD [])) (pystr "edit")
      || containsSub (pyLower (input_data.tool_name.getD [])) (pystr "write")
      || containsSub (pyLower (input_data.tool_name.getD [])) (pystr "notebook") then
    if prompt_yes_no reader
        (hook_message (input_data.tool_name.getD []) (input_data.tool_input.getD (.obj []))) then
      (EMPTY_SIGNAL,
        [hook_message (input_data.tool_name.getD []) (input_data.tool_input.getD (.obj []))])
    else
      (BLOCK_SIGNAL,
        [hook_message (input_data.tool_name.getD []) (input_data.tool_input.getD (.obj []))])
  else
    (EMPTY_SIGNAL, [])

/-! ## The specification's risk classification -/

/-- The spec's `is_risky`: the lower-cased name is in the fixed set, or
contains one of the four risky substrings. -/
def spec_is_risky (n : PyStr) : Prop :=
  pyLower n ∈ [pystr "bash", pystr "edit", pystr "multiedit", pystr "write",
    pystr "notebookedit"]
  ∨ hasSubstring (pyLower n) (pystr "bash")
  ∨ hasSubstring (pyLower n) (pystr "edit")
  ∨ hasSubstring (pyLower n) (pystr "write")
  ∨ hasSubstring (pyLower n) (pystr "notebook")

/-! ## Message Renderer (`print_assistant_message`)

Rendering is modelled as the list of lines printed. `ToolResultBlock.content`
is either already a string or a structured value that `json.dumps` serializes
(the `isinstance(block.content, str)` dispatch). -/

/-- The content of a `ToolResultBlock`: a string, or a structured value. -/
inductive ToolResultContent where
  | text : PyStr → ToolResultContent
  | structured : Json → ToolResultContent

/-- A content block of an `AssistantMessage`. -/
inductive ContentBlock where
  | TextBlock : PyStr → ContentBlock
  | ToolUseBlock : PyStr → Json → ContentBlock
  | ToolResultBlock : ToolResultContent → Bool → ContentBlock

/-- The summary `json.dumps(block.input, ensure_ascii=False)[:500]` of a `ToolUseBlock`. -/
def summarized_input (input : Json) : PyStr := (jsonDumps input).take 500

/-- The value `block.content if isinstance(block.content, str) else json.dumps(...)`. -/
def result_preview : ToolResultContent → PyStr
  | .text s => s
  | .structured j => jsonDumps j

/-- The preview `str(result_preview)[:500]` (`str()` is the identity on strings). -/
def result_preview_trunc (content : ToolResultContent) : PyStr :=
  (result_preview content).take 500

/-- The one line printed for a content block. -/
def render_block : ContentBlock → PyStr
  | .TextBlock text => pystr "Claude: " ++ text
  | .ToolUseBlock name input =>
      pystr "→ Using tool: " ++ name ++ pystr " | input: " ++ summarized_input input
  | .ToolResultBlock content is_error =>
      pystr "✓ Tool result (" ++ (if is_error then pystr "error" else pystr "ok")
        ++ pystr "): " ++ result_preview_trunc content

/-- Model of `print_assistant_message`: one printed line per content block, in order. -/
def print_assistant_message (content : List ContentBlock) : List PyStr :=
  content.map render_block

/-! ## Result cost formatting

`msg.total_cost_usd` is a Python float or `None`; it is modelled as an
optional rational, and the f-string `{v:.4f}` as rounding `v * 10000`
half-to-even and printing the integer and a zero-padded four-digit
fraction. -/

/-- Round a rational to the nearest integer, ties to even (the rounding of
Python's fixed-point float formatting). -/
def roundHalfEven (q : ℚ) : ℤ :=
  let f := ⌊q⌋
  let r := q - f
  if r < 1 / 2 then f
  else if 1 / 2 < r then f + 1
  else if f % 2 = 0 then f else f + 1

/-- The four digits after the decimal point, zero-padded (`m < 10000`). -/
def frac4 (m : Nat) : PyStr :=
  [digitChar (m / 1000 % 10), digitChar (m / 100 % 10),
   digitChar (m / 10 % 10), digitChar (m % 10)]

/-- Python `format(q, ".4f")` on the rational model. -/
def pyFormat4 (q : ℚ) : PyStr :=
  (if roundHalfEven (q * 10000) < 0 then [Char.ofNat 45] else [])
    ++ natToChars ((roundHalfEven (q * 10000)).natAbs / 10000)
    ++ Char.ofNat 46 :: frac4 ((roundHalfEven (q * 10000)).natAbs % 10000)

/-- The cost field of the result line:
`f"${msg.total_cost_usd:.4f}" if msg.total_cost_usd is not None else "n/a"`. -/
def cost_render : Option ℚ → PyStr
  | some v => '$' :: pyFormat4 v
  | none => pystr "n/a"

/-! ## Session Loop (`interactive_session`) -/

/-- A message of the response stream (other kinds are passed through
unrendered). -/
inductive AgentMessage where
  | assistant : List ContentBlock → AgentMessage
  | result : PyStr → Int → Option ℚ → AgentMessage
  | other : AgentMessage

/-- The `--- Result ... ---` line printed for a `ResultMessage`, with
`duration = f"{msg.duration_ms} ms"` and the cost field. -/
def result_line (session_id : PyStr) (duration_ms : Int)
    (total_cost_usd : Option ℚ) : PyStr :=
  pystr "--- Result (session=" ++ session_id ++ pystr ") • time="
    ++ intToChars duration_ms ++ pystr " ms" ++ pystr " • cost="
    ++ cost_render total_cost_usd ++ pystr " ---\n"

/-- Observable actions of one session-loop iteration. -/
inductive SessionEvent where
  | printed : PyStr → SessionEvent
  | queried : PyStr → PyStr → SessionEvent

/-- The fixed session identifier attached to every query. -/
def SESSION_ID : PyStr := pystr "interactive-cli"

/-- The lines printed while draining one streamed message. -/
def handle_message : AgentMessage → List SessionEvent
  | .assistant content => (print_assistant_message content).map .printed
  | .result sid dur cost => [.printed (result_line sid dur cost)]
  | .other => []

/-- States of the session loop. -/
inductive LoopState where
  | awaitingInput : LoopState
  | terminated : LoopState

/-- One iteration of the `while True` body of `interactive_session`, given the
raw line the Line Reader returned and the messages the runtime streams back
for the submitted query: strip the input; if empty, print the goodbye message
and leave the loop; otherwise submit the query tagged with `SESSION_ID` and
drain the response stream. -/
def interactive_step (raw : PyStr) (messages : List AgentMessage) :
    LoopState × List SessionEvent :=
  if pyStrip raw = [] then
    (.terminated, [.printed (pystr "Goodbye.")])
  else
    (.awaitingInput,
      .queried (pyStrip raw) SESSION_ID :: (messages.map handle_message).flatten)

/-! ## Supporting lemmas -/

lemma pyStartsWith_iff (n : PyStr) : ∀ h : PyStr,
    pyStartsWith n h = true ↔ ∃ r, h = n ++ r := by
  induction n with
  | nil =>
    intro h
    simp [pyStartsWith]
  | cons a as ih =>
    intro h
    cases h with
    | nil =>
      simp [pyStartsWith]
    | cons b bs =>
      simp only [pyStartsWith, Bool.and_eq_true, decide_eq_true_eq, ih bs,
        List.cons_append, List.cons.injEq]
      constructor
      · rintro ⟨hab, r, hr⟩
        exact ⟨r, hab.symm, hr⟩
      · rintro ⟨r, hba, hr⟩
        exact ⟨hba.symm, r, hr⟩

lemma containsSub_iff (hay needle : PyStr) :
    containsSub hay needle = true ↔ hasSubstring hay needle := by
  induction hay with
  | nil =>
    simp only [containsSub, pyStartsWith_iff, hasSubstring]
    constructor
    · rintro ⟨r, hr⟩
      exact ⟨[], r, by simpa using hr⟩
    · rintro ⟨l, r, h⟩
      have h3 : l = [] ∧ needle = [] ∧ r = [] := by simpa using h.symm
      exact ⟨[], by simp [h3.2.1]⟩
  | cons c rest ih =>
    simp only [containsSub, Bool.or_eq_true, pyStartsWith_iff, ih, hasSubstring]
    constructor
    · rintro (⟨r, hr⟩ | ⟨l, r, hr⟩)
      · exact ⟨[], r, by simp [hr]⟩
      · exact ⟨c :: l, r, by simp [hr]⟩
    · rintro ⟨l, r, hl⟩
      cases l with
      | nil =>
        exact Or.inl ⟨r, by simpa using hl⟩
      | cons x xs =>
        right
        rcases List.cons.injEq .. ▸ hl with ⟨-, hrest⟩
        simp only [List.cons_append, List.cons.injEq] at hl
        exact ⟨xs, r, hl.2⟩

lemma risky_guard_iff (nlc : PyStr) :
    (decide (nlc ∈ HUMAN_GATED_TOOLS)
      || containsSub nlc (pystr "bash") || containsSub nlc (pystr "edit")
      || containsSub nlc (pystr "write") || containsSub nlc (pystr "notebook")) = true ↔
    (nlc ∈ [pystr "bash", pystr "edit", pystr "multiedit", pystr "write",
        pystr "notebookedit"]
      ∨ hasSubstring nlc (pystr "bash") ∨ hasSubstring nlc (pystr "edit")
      ∨ hasSubstring nlc (pystr "write") ∨ hasSubstring nlc (pystr "notebook")) := by
  simp [HUMAN_GATED_TOOLS, Bool.or_eq_true, decide_eq_true_eq, containsSub_iff,
    or_assoc]

/-- The predicate `spec_is_risky` coincides with the executable guard of the two gates. -/
lemma spec_is_risky_eq_guard (n : PyStr) :
    spec_is_risky n ↔
    (decide (pyLower n ∈ HUMAN_GATED_TOOLS)
      || containsSub (pyLower n) (pystr "bash") || containsSub (pyLower n) (pystr "edit")
      || containsSub (pyLower n) (pystr "write")
      || containsSub (pyLower n) (pystr "notebook")) = true :=
  (risky_guard_iff (pyLower n)).symm

/-- Evaluation of the direct gate on a risky name. -/
lemma gate_eval_risky (reader : PyStr → PyStr) (name : PyStr) (input : Json)
    (h : spec_is_risky name) :
    can_use_tool_gate reader (some name) input =
      if prompt_yes_no reader (gate_message (some name) input) then
        (.Allow, [gate_message (some name) input])
      else
        (.Deny (pystr "User denied " ++ name), [gate_message (some name) input]) := by
  have hg := (risky_guard_iff (pyLower name)).mpr h
  simp only [can_use_tool_gate, Option.getD_some, hg, if_true, strOfName]

/-- Evaluation of the direct gate on a benign name. -/
lemma gate_eval_benign (reader : PyStr → PyStr) (name : PyStr) (input : Json)
    (h : ¬ spec_is_risky name) :
    can_use_tool_gate reader (some name) input = (.Allow, []) := by
  have hg : (decide (pyLower name ∈ HUMAN_GATED_TOOLS)
      || containsSub (pyLower name) (pystr "bash")
      || containsSub (pyLower name) (pystr "edit")
      || containsSub (pyLower name) (pystr "write")
      || containsSub (pyLower name) (pystr "notebook")) = false := by
    rw [Bool.eq_false_iff]
    intro hc
    exact h ((risky_guard_iff (pyLower name)).mp hc)
  simp only [can_use_tool_gate, Option.getD_some, hg, Bool.false_eq_true, if_false]

/-- Evaluation of the hook on a risky name. -/
lemma hook_eval_risky (reader : PyStr → PyStr) (name : PyStr) (input : Option Json)
    (h : spec_is_risky name) :
    pre_tool_hitl reader ⟨some name, input⟩ =
      if prompt_yes_no reader (hook_message name (input.getD (.obj []))) then
        (EMPTY_SIGNAL, [hook_message name (input.getD (.obj []))])
      else
        (BLOCK_SIGNAL, [hook_message name (input.getD (.obj []))]) := by
  have hg := (risky_guard_iff (pyLower name)).mpr h
  simp only [pre_tool_hitl, Option.getD_some, hg, if_true]

/-- Evaluation of the hook on a benign name. -/
lemma hook_eval_benign (reader : PyStr → PyStr) (name : PyStr) (input : Option Json)
    (h : ¬ spec_is_risky name) :
    pre_tool_hitl reader ⟨some name, input⟩ = (EMPTY_SIGNAL, []) := by
  have hg : (decide (pyLower name ∈ HUMAN_GATED_TOOLS)
      || containsSub (pyLower name) (pystr "bash")
      || containsSub (pyLower name) (pystr "edit")
      || containsSub (pyLower name) (pystr "write")
      || containsSub (pyLower name) (pystr "notebook")) = false := by
    rw [Bool.eq_false_iff]
    intro hc
    exact h ((risky_guard_iff (pyLower name)).mp hc)
  simp only [pre_tool_hitl, Option.getD_some, hg, Bool.false_eq_true, if_false]

/-- Rounding half-to-even is the identity on integers. -/
lemma roundHalfEven_intCast (n : ℤ) : roundHalfEven ((n : ℚ)) = n := by
  unfold roundHalfEven
  norm_num

/-! ## Claims -/

/-- C1: a tool name is classified risky (a confirmation prompt is issued) by
the direct gate if and only if its lower-cased form is in
`{bash, edit, multiedit, write, notebookedit}` or contains one of the
substrings `bash`, `edit`, `write`, `notebook`; every other name is benign,
and the hook entry point classifies identically. -/
theorem c1_risk_classification (name : PyStr) (input : Json) (reader : PyStr → PyStr) :
    ((can_use_tool_gate reader (some name) input).2 ≠ [] ↔ spec_is_risky name) ∧
    ((pre_tool_hitl reader ⟨some name, some input⟩).2 ≠ [] ↔ spec_is_risky name) := by
  by_cases h : spec_is_risky name
  · rw [gate_eval_risky reader name input h, hook_eval_risky reader name (some input) h]
    constructor
    · constructor
      · intro _; exact h
      · intro _
        by_cases hp : prompt_yes_no reader (gate_message (some name) input) <;> simp [hp]
    · constructor
      · intro _; exact h
      · intro _
        by_cases hp : prompt_yes_no reader (hook_message name input) <;> simp [hp]
  · rw [gate_eval_benign reader name input h, hook_eval_benign reader name (some input) h]
    simp [h]

/-- C1 witness: `Bash` is gated at both entry points; `Glob` prompts nowhere. -/
theorem c1_risk_classification_witness :
    (can_use_tool_gate (fun _ => pystr "yes") (some (pystr "Bash")) (Json.obj [])).2 ≠ [] ∧
    (pre_tool_hitl (fun _ => pystr "yes")
      ⟨some (pystr "Bash"), some (Json.obj [])⟩).2 ≠ [] ∧
    (pre_tool_hitl (fun _ => pystr "yes") ⟨some (pystr "Glob"), some (Json.obj [])⟩).2 = [] := by
  have hb : spec_is_risky (pystr "Bash") :=
    (spec_is_risky_eq_guard (pystr "Bash")).mpr (by decide)
  have hg : ¬ spec_is_risky (pystr "Glob") := fun h =>
    absurd ((spec_is_risky_eq_guard (pystr "Glob")).mp h) (by decide)
  refine ⟨(c1_risk_classification (pystr "Bash") (Json.obj []) (fun _ => pystr "yes")).1.mpr hb,
    (c1_risk_classification (pystr "Bash") (Json.obj []) (fun _ => pystr "yes")).2.mpr hb, ?_⟩
  have h2 := (c1_risk_classification (pystr "Glob") (Json.obj []) (fun _ => pystr "yes")).2
  exact not_not.mp (fun hne => hg (h2.mp hne))

/-- C2: the Confirmation Prompt returns true iff the raw operator answer,
after stripping surrounding whitespace and lower-casing, is exactly `y` or
`yes`; every other input (including the empty string) yields false. -/
theorem c2_confirmation_strict_allowlist (reader : PyStr → PyStr) (message : PyStr) :
    prompt_yes_no reader message = true ↔
      (pyLower (pyStrip (reader message)) = pystr "y" ∨
       pyLower (pyStrip (reader message)) = pystr "yes") := by
  simp [prompt_yes_no]

/-- C2 witness: `"  YES "` is accepted; the empty answer and a malformed
answer are denied. -/
theorem c2_confirmation_strict_allowlist_witness :
    prompt_yes_no (fun _ => pystr "  YES ") [] = true ∧
    prompt_yes_no (fun _ => pystr "") [] = false ∧
    prompt_yes_no (fun _ => pystr "y please") [] = false := by
  refine ⟨(c2_confirmation_strict_allowlist (fun _ => pystr "  YES ") []).mpr (by decide),
    ?_, ?_⟩
  · refine Bool.eq_false_iff.mpr (fun htrue => ?_)
    have h := (c2_confirmation_strict_allowlist (fun _ => pystr "") []).mp htrue
    exact absurd h (by decide)
  · refine Bool.eq_false_iff.mpr (fun htrue => ?_)
    have h := (c2_confirmation_strict_allowlist (fun _ => pystr "y please") []).mp htrue
    exact absurd h (by decide)

/-- C3: on a risky tool name, if the operator's confirmation resolves to true
the direct gate returns `Allow` and the hook returns the empty signal; if it
resolves to false the direct gate returns `Deny` with reason exactly
`"User denied "` followed by the name, and the hook returns
`{"decision": "block"}`. -/
theorem c3_risky_verdict_mapping (name : PyStr) (input : Json) (answer : PyStr)
    (hrisky : spec_is_risky name) :
    ((pyLower (pyStrip answer) = pystr "y" ∨ pyLower (pyStrip answer) = pystr "yes") →
      (can_use_tool_gate (fun _ => answer) (some name) input).1 = .Allow ∧
      (pre_tool_hitl (fun _ => answer) ⟨some name, some input⟩).1 = EMPTY_SIGNAL) ∧
    (¬(pyLower (pyStrip answer) = pystr "y" ∨ pyLower (pyStrip answer) = pystr "yes") →
      (can_use_tool_gate (fun _ => answer) (some name) input).1
        = .Deny (pystr "User denied " ++ name) ∧
      (pre_tool_hitl (fun _ => answer) ⟨some name, some input⟩).1 = BLOCK_SIGNAL) := by
  rw [gate_eval_risky _ _ _ hrisky, hook_eval_risky _ _ _ hrisky]
  constructor
  · intro hyes
    have hp : ∀ m : PyStr, prompt_yes_no (fun _ => answer) m = true := fun m => by
      simpa [prompt_yes_no] using hyes
    simp [hp]
  · intro hno
    have hp : ∀ m : PyStr, prompt_yes_no (fun _ => answer) m = false := fun m => by
      simpa [prompt_yes_no] using hno
    simp [hp]

/-- C3 witness: `Bash` with answer `yes` is allowed at both entry points; with
answer `no` the gate denies with the exact reason and the hook blocks. -/
theorem c3_risky_verdict_mapping_witness :
    (can_use_tool_gate (fun _ => pystr "yes") (some (pystr "Bash")) (Json.obj [])).1
      = .Allow ∧
    (can_use_tool_gate (fun _ => pystr "no") (some (pystr "Bash")) (Json.obj [])).1
      = .Deny (pystr "User denied Bash") ∧
    (pre_tool_hitl (fun _ => pystr "no") ⟨some (pystr "Bash"), some (Json.obj [])⟩).1
      = BLOCK_SIGNAL := by
  have hb : spec_is_risky (pystr "Bash") :=
    (spec_is_risky_eq_guard (pystr "Bash")).mpr (by decide)
  have hy := (c3_risky_verdict_mapping (pystr "Bash") (Json.obj []) (pystr "yes") hb).1
    (by decide)
  have hn := (c3_risky_verdict_mapping (pystr "Bash") (Json.obj []) (pystr "no") hb).2
    (by decide)
  exact ⟨hy.1, hn.1, hn.2⟩

/-- C4: on a benign tool name, the direct gate returns `Allow`, the hook
returns the empty signal, and neither entry point issues any confirmation
prompt (the prompt log is empty, so the Line Reader is never invoked). -/
theorem c4_benign_allows_without_prompt (name : PyStr) (input : Json)
    (reader : PyStr → PyStr) (h : ¬ spec_is_risky name) :
    can_use_tool_gate reader (some name) input = (.Allow, []) ∧
    pre_tool_hitl reader ⟨some name, some input⟩ = (EMPTY_SIGNAL, []) :=
  ⟨gate_eval_benign reader name input h, hook_eval_benign reader name (some input) h⟩

/-- C4 witness: the benign tool `Glob` is allowed with no prompt issued. -/
theorem c4_benign_allows_without_prompt_witness :
    can_use_tool_gate (fun _ => pystr "yes") (some (pystr "Glob")) (Json.obj [])
      = (.Allow, []) ∧
    pre_tool_hitl (fun _ => pystr "yes") ⟨some (pystr "Glob"), some (Json.obj [])⟩
      = (EMPTY_SIGNAL, []) :=
  c4_benign_allows_without_prompt (pystr "Glob") (Json.obj []) (fun _ => pystr "yes")
    (fun h => absurd ((spec_is_risky_eq_guard (pystr "Glob")).mp h) (by decide))

/-- C5: the hook and the direct gate implement one policy: for every tool
name, tool input and operator answer, the hook returns the block signal
exactly when the direct gate returns `Deny`, and the empty signal exactly
when the direct gate returns `Allow`. -/
theorem c5_entry_point_equivalence (name : PyStr) (input : Json) (answer : PyStr) :
    ((pre_tool_hitl (fun _ => answer) ⟨some name, some input⟩).1 = BLOCK_SIGNAL ↔
      ∃ m, (can_use_tool_gate (fun _ => answer) (some name) input).1 = .Deny m) ∧
    ((pre_tool_hitl (fun _ => answer) ⟨some name, some input⟩).1 = EMPTY_SIGNAL ↔
      (can_use_tool_gate (fun _ => answer) (some name) input).1 = .Allow) := by
  by_cases h : spec_is_risky name
  · rw [gate_eval_risky _ _ _ h, hook_eval_risky _ _ _ h]
    by_cases hp : prompt_yes_no (fun _ => answer) (gate_message (some name) input) = true
    · have hph : prompt_yes_no (fun _ => answer) (hook_message name input) = true := hp
      simp [hp, hph, EMPTY_SIGNAL, BLOCK_SIGNAL]
    · have hph : prompt_yes_no (fun _ => answer) (hook_message name input) = false :=
        Bool.eq_false_iff.mpr hp
      simp [Bool.eq_false_iff.mpr hp, hph, EMPTY_SIGNAL, BLOCK_SIGNAL]
  · rw [gate_eval_benign _ _ _ h, hook_eval_benign _ _ _ h]
    simp [EMPTY_SIGNAL, BLOCK_SIGNAL]

/-- C5 witness: at `Bash` with answer `n` the hook blocks and the gate denies;
with answer `y` the hook is empty and the gate allows; at benign `Read` both
are empty/allow. -/
theorem c5_entry_point_equivalence_witness :
    (pre_tool_hitl (fun _ => pystr "n") ⟨some (pystr "Bash"), some (Json.obj [])⟩).1
      = BLOCK_SIGNAL ∧
    (pre_tool_hitl (fun _ => pystr "y") ⟨some (pystr "Bash"), some (Json.obj [])⟩).1
      = EMPTY_SIGNAL ∧
    (pre_tool_hitl (fun _ => pystr "y") ⟨some (pystr "Read"), some (Json.obj [])⟩).1
      = EMPTY_SIGNAL := by
  refine ⟨(c5_entry_point_equivalence (pystr "Bash") (Json.obj []) (pystr "n")).1.mpr
      ⟨pystr "User denied Bash", rfl⟩,
    (c5_entry_point_equivalence (pystr "Bash") (Json.obj []) (pystr "y")).2.mpr rfl,
    (c5_entry_point_equivalence (pystr "Read") (Json.obj []) (pystr "y")).2.mpr rfl⟩

/-- C6: a tool input (and a tool result) whose serialized form exceeds 500
characters is rendered truncated to exactly its first 500 characters; one at
or under the limit is rendered unmodified; string result content is used
as-is and structured content is serialized first. -/
theorem c6_renderer_truncation (input : Json) (content : ToolResultContent) :
    ((jsonDumps input).length > 500 →
      summarized_input input = (jsonDumps input).take 500 ∧
      (summarized_input input).length = 500) ∧
    ((jsonDumps input).length ≤ 500 → summarized_input input = jsonDumps input) ∧
    ((result_preview content).length > 500 →
      result_preview_trunc content = (result_preview content).take 500 ∧
      (result_preview_trunc content).length = 500) ∧
    ((result_preview content).length ≤ 500 →
      result_preview_trunc content = result_preview content) ∧
    (∀ s : PyStr, result_preview (.text s) = s) ∧
    (∀ j : Json, result_preview (.structured j) = jsonDumps j) := by
  refine ⟨fun h => ⟨rfl, ?_⟩, fun h => ?_, fun h => ⟨rfl, ?_⟩, fun h => ?_,
    fun s => rfl, fun j => rfl⟩
  · simp only [summarized_input, List.length_take]
    omega
  · simp only [summarized_input]
    exact List.take_of_length_le h
  · simp only [result_preview_trunc, List.length_take]
    omega
  · simp only [result_preview_trunc]
    exact List.take_of_length_le h

set_option maxRecDepth 20000 in
/-- C6 witness: a 510-character string input serializes to 512 characters and
is cut to exactly 500; a short string result is rendered unmodified. -/
theorem c6_renderer_truncation_witness :
    summarized_input (Json.str (List.replicate 510 'a'))
      = (jsonDumps (Json.str (List.replicate 510 'a'))).take 500 ∧
    (summarized_input (Json.str (List.replicate 510 'a'))).length = 500 ∧
    result_preview_trunc (.text (pystr "ok")) = pystr "ok" := by
  have h := c6_renderer_truncation (Json.str (List.replicate 510 'a'))
    (.text (pystr "ok"))
  obtain ⟨h1, h2⟩ := h.1 (by decide)
  refine ⟨h1, h2, ?_⟩
  have h3 := h.2.2.2.1 (by decide)
  simpa using h3

/-- C7: when the trimmed operator input is empty, the session loop prints the
goodbye message and moves to the terminated state, and no query event is ever
emitted for that input. -/
theorem c7_empty_input_terminates (raw : PyStr) (messages : List AgentMessage)
    (h : pyStrip raw = []) :
    interactive_step raw messages
      = (.terminated, [.printed (pystr "Goodbye.")]) ∧
    ∀ p sid, SessionEvent.queried p sid ∉ (interactive_step raw messages).2 := by
  have hstep : interactive_step raw messages
      = (.terminated, [.printed (pystr "Goodbye.")]) := by
    simp [interactive_step, h]
  refine ⟨hstep, fun p sid hmem => ?_⟩
  rw [hstep] at hmem
  simp at hmem

/-- C7 witness: a whitespace-only input line terminates the loop with only the
goodbye line printed, submitting no query. -/
theorem c7_empty_input_terminates_witness :
    interactive_step (pystr "   ") [AgentMessage.other]
      = (.terminated, [.printed (pystr "Goodbye.")]) ∧
    SessionEvent.queried (pystr "hello") SESSION_ID
      ∉ (interactive_step (pystr "   ") [AgentMessage.other]).2 := by
  have h := c7_empty_input_terminates (pystr "   ") [AgentMessage.other] (by decide)
  exact ⟨h.1, h.2 (pystr "hello") SESSION_ID⟩

/-- C8: the Line Reader returns the empty string whenever the underlying read
is interrupted by end-of-input or a keyboard interrupt, on both the
enhanced-backend path and the plain blocking-fallback path. -/
theorem c8_interrupt_yields_empty (enhanced fallback : PyStr → ReadOutcome)
    (prompt : PyStr) :
    ((enhanced prompt = .eofError ∨ enhanced prompt = .keyboardInterrupt) →
      read_user_input true enhanced fallback prompt = []) ∧
    ((fallback prompt = .eofError ∨ fallback prompt = .keyboardInterrupt) →
      read_user_input false enhanced fallback prompt = []) := by
  constructor <;> rintro (h | h) <;> simp [read_user_input, h]

/-- C8 witness: end-of-input on the enhanced path and a keyboard interrupt on
the fallback path both yield the empty string. -/
theorem c8_interrupt_yields_empty_witness :
    read_user_input true (fun _ => .eofError) (fun _ => .line (pystr "x"))
      (pystr "You: ") = [] ∧
    read_user_input false (fun _ => .line (pystr "x")) (fun _ => .keyboardInterrupt)
      (pystr "You: ") = [] :=
  ⟨(c8_interrupt_yields_empty (fun _ => .eofError) (fun _ => .line (pystr "x"))
      (pystr "You: ")).1 (Or.inl rfl),
   (c8_interrupt_yields_empty (fun _ => .line (pystr "x")) (fun _ => .keyboardInterrupt)
      (pystr "You: ")).2 (Or.inr rfl)⟩

/-- C9: the result line renders the cost as `"n/a"` when `total_cost_usd` is
absent, and otherwise as `"$"` followed by the value formatted with exactly
four decimal places; in particular `0.0123` renders as `"$0.0123"`. -/
theorem c9_cost_rendering (sid : PyStr) (dur : Int) :
    cost_render none = pystr "n/a" ∧
    (∀ v : ℚ, cost_render (some v) = '$' :: pyFormat4 v) ∧
    (∀ v : ℚ, ∃ pre post : PyStr,
      cost_render (some v) = ('$' :: pre) ++ Char.ofNat 46 :: post ∧
      post.length = 4) ∧
    cost_render (some (0.0123 : ℚ)) = pystr "$0.0123" ∧
    handle_message (.result sid dur none) = [.printed (result_line sid dur none)] ∧
    handle_message (.result sid dur (some (0.0123 : ℚ)))
      = [.printed (result_line sid dur (some (0.0123 : ℚ)))] := by
  refine ⟨rfl, fun v => rfl, fun v => ?_, ?_, rfl, rfl⟩
  · refine ⟨(if roundHalfEven (v * 10000) < 0 then [Char.ofNat 45] else [])
        ++ natToChars ((roundHalfEven (v * 10000)).natAbs / 10000),
      frac4 ((roundHalfEven (v * 10000)).natAbs % 10000), ?_, rfl⟩
    simp [cost_render, pyFormat4, List.append_assoc]
  · have h2 : ((0.0123 : ℚ) * 10000) = ((123 : ℤ) : ℚ) := by norm_num
    have h : roundHalfEven ((0.0123 : ℚ) * 10000) = 123 := by
      rw [h2, roundHalfEven_intCast]
    simp only [cost_render, pyFormat4, h]
    decide

/-- C10: an absent or null tool name is coerced to the empty string, which is
classified benign: the direct gate returns `Allow` with no prompt issued and
the hook returns the empty signal with no prompt issued. -/
theorem c10_null_name_allowed (reader : PyStr → PyStr) (input : Json)
    (ti : Option Json) :
    can_use_tool_gate reader none input = (.Allow, []) ∧
    can_use_tool_gate reader (some []) input = (.Allow, []) ∧
    pre_tool_hitl reader ⟨none, ti⟩ = (EMPTY_SIGNAL, []) :=
  ⟨rfl, rfl, rfl⟩
